import Mathlib

/-!
Shallow embedding of the Job Pipeline Orchestrator
(src/services/orchestrator.py together with the Job/Lecture rows of
src/models.py).

Modelling conventions:
* Statuses are the Python strings the source compares against
  ("pending" / "running" / "done" / "failed" / "cancelled").
* The entity store holds the single Job row the orchestrator touches
  (`OrchState.job`) plus the lectures table.  `db.session.commit()` on a
  mutated row is modelled by `putJob`, which persists the new row value.
* Network and file-system effects are oracles in `Env`: each HTTP attempt
  a runner could make has a predetermined `AttemptOutcome`, and each
  artifact read/write has a predetermined `Except String Unit` outcome.
* Every operation additionally returns the list of stage-endpoint HTTP
  posts it performed (`CallEvent`), so dispatch counts are observable.
* The two fan-out threads of `process_job` are modelled by running the
  two stage runners sequentially (OCR first) with both errors captured,
  which is one legal interleaving of the joined threads; the poll loop,
  which in the source re-reads a row that concurrent actors may change,
  is modelled over an explicit observation stream (`pollLoopGo`), and
  inside the sequential `process_job` that stream is constant.
-/

/-- Models Python `pat in s` for a fixed non-empty pattern (used for the
`"timed out" in err or "timeout" in err` checks of the source). -/
def strContains (s pat : String) : Bool :=
  (s.splitOn pat).length != 1

/-- The `err = str(e).lower(); "timed out" in err or "timeout" in err`
classification check shared by `_make_request` and `_post_with_files_retry`. -/
def timedOutText (e : String) : Bool :=
  strContains e.toLower "timed out" || strContains e.toLower "timeout"

/-- SSL-error message raised by `_post_with_files_retry` (orchestrator.py:77-80). -/
def sslRetryMsg (url : String) : String :=
  "SSL error talking to " ++ url ++ ". Ensure the Colab notebook and ngrok tunnel are running; try again later."

/-- SSL-error message raised by `_make_request` (orchestrator.py:40-44). -/
def sslOnceMsg (url : String) : String :=
  "SSL error talking to " ++ url ++ ". Ensure the Colab notebook and ngrok tunnel are running; try again in a moment."

/-- Upload-timeout message raised by `_post_with_files_retry` (orchestrator.py:83-86). -/
def uploadTimeoutRetryMsg (url : String) : String :=
  "Upload timed out while sending video to " ++ url ++ ". Try a smaller video or increase SERVICE_TIMEOUT in .env."

/-- Upload-timeout message raised by `_make_request` (orchestrator.py:48-51). -/
def uploadTimeoutOnceMsg (url : String) : String :=
  "Upload timed out while sending video to " ++ url ++ ". Try a smaller video or increase SERVICE_TIMEOUT in .env (e.g. 1200 for 20 min)."

/-- Connection-failure message shared by both request helpers (orchestrator.py:52-55, 87-90). -/
def connFailedMsg (url : String) : String :=
  "Connection failed to " ++ url ++ ". Check that the service (Colab + ngrok) is running and the URL in .env is correct."

/-- Response-timeout message shared by both request helpers (orchestrator.py:38-39, 91-92). -/
def serviceTimeoutMsg (url : String) : String :=
  "Service timeout (response took too long): " ++ url

/-- HTTP-status-error message shared by both request helpers (orchestrator.py:56-57, 93-94). -/
def httpErrorMsg (url m : String) : String :=
  "HTTP error from " ++ url ++ ": " ++ m

/-- Oracle outcome of one HTTP post attempt, mirroring the exception classes
`requests` can raise (or a successful JSON body). -/
inductive AttemptOutcome where
  | ok (body : String)
  | sslError (msg : String)
  | connError (msg : String)
  | timeout
  | httpError (msg : String)
deriving Repr, DecidableEq

/-- One recorded HTTP post to a stage endpoint. -/
inductive CallEvent where
  | ocr
  | whisper
  | llm
deriving Repr, DecidableEq

/-- Loop body of `_post_with_files_retry` (orchestrator.py:61-95).
`remaining` counts the attempts still allowed (`max_attempts - attempt + 1`),
`made` counts the posts performed so far; the second component of the result
is the total number of posts performed.  Retrying (sleep-and-continue) happens
only for SSL/connection errors and only while further attempts remain; timeout
and HTTP errors raise immediately.  Fuel 0 models the empty `range` of
`max_attempts = 0`, where `raise last_error or Exception(...)` fires with
`last_error` still `None`. -/
def postFilesGo (url : String) (outcomes : Nat → AttemptOutcome) :
    Nat → Nat → Except String String × Nat
  | 0, made => (Except.error ("Error calling " ++ url), made)
  | remaining + 1, made =>
    match outcomes made with
    | AttemptOutcome.ok body => (Except.ok body, made + 1)
    | AttemptOutcome.sslError _ =>
        if remaining > 0 then postFilesGo url outcomes remaining (made + 1)
        else (Except.error (sslRetryMsg url), made + 1)
    | AttemptOutcome.connError m =>
        if remaining > 0 then postFilesGo url outcomes remaining (made + 1)
        else if timedOutText m then (Except.error (uploadTimeoutRetryMsg url), made + 1)
        else (Except.error (connFailedMsg url), made + 1)
    | AttemptOutcome.timeout => (Except.error (serviceTimeoutMsg url), made + 1)
    | AttemptOutcome.httpError m => (Except.error (httpErrorMsg url m), made + 1)

/-- `_post_with_files_retry(url, data, video_path, max_attempts)`
(orchestrator.py:61-95): result of the call and the number of posts made. -/
def post_with_files_retry (url : String) (outcomes : Nat → AttemptOutcome)
    (maxAttempts : Nat) : Except String String × Nat :=
  postFilesGo url outcomes maxAttempts 0

/-- The `method='POST'` JSON branch of `_make_request` (orchestrator.py:23-59),
used by the LLM stage: a single post, with the failure classification of that
helper.  Second component is the number of posts made (always 1). -/
def make_request_post (url : String) (o : AttemptOutcome) : Except String String × Nat :=
  match o with
  | AttemptOutcome.ok body => (Except.ok body, 1)
  | AttemptOutcome.sslError _ => (Except.error (sslOnceMsg url), 1)
  | AttemptOutcome.connError m =>
      if timedOutText m then (Except.error (uploadTimeoutOnceMsg url), 1)
      else (Except.error (connFailedMsg url), 1)
  | AttemptOutcome.timeout => (Except.error (serviceTimeoutMsg url), 1)
  | AttemptOutcome.httpError m => (Except.error (httpErrorMsg url m), 1)

/-- The Job row (models.py:33-80): id, owner, video location, three stage
statuses, overall status, optional status message. -/
structure Job where
  id : Nat
  user_id : Nat
  video_path : String
  ocr_status : String
  whisper_status : String
  llm_status : String
  final_status : String
  status_message : Option String
deriving Repr, DecidableEq

/-- The Lecture row (models.py:82-100): id, owning job (unique), summary and
artifact paths. -/
structure Lecture where
  id : Nat
  job_id : Nat
  summary : String
  notes_path : String
  transcript_path : String
deriving Repr, DecidableEq

/-- The slice of the entity store the orchestrator touches: the Job row under
processing and the lectures table (with its autoincrement counter). -/
structure OrchState where
  job : Option Job
  lectures : List Lecture
  nextLectureId : Nat
deriving Repr, DecidableEq

/-- `Job.query.get(job_id)`. -/
def getJob (s : OrchState) (jobId : Nat) : Option Job :=
  match s.job with
  | some j => if j.id = jobId then some j else none
  | none => none

/-- Commit a mutated Job row (`db.session.commit()` after assignments). -/
def putJob (s : OrchState) (j : Job) : OrchState :=
  { s with job := some j }

/-- Configuration plus the effect oracles of one orchestrator run. -/
structure Env where
  ocrUrl : String
  whisperUrl : String
  llmUrl : String
  uploadFolder : String
  maxPollAttempts : Nat
  ocrOutcomes : Nat → AttemptOutcome
  whisperOutcomes : Nat → AttemptOutcome
  ocrPersist : Except String Unit
  whisperPersist : Except String Unit
  llmArtifactsRead : Except String Unit
  llmOutcome : AttemptOutcome
  llmPersist : Except String Unit
  llmSummary : String

/-- `_get_job_storage_path` (orchestrator.py:97-99). -/
def storagePath (env : Env) (jobId : Nat) : String :=
  env.uploadFolder ++ "/job_" ++ toString jobId

/-- Path of the final notes artifact written by the LLM stage (orchestrator.py:200). -/
def finalNotesPath (env : Env) (jobId : Nat) : String :=
  storagePath env jobId ++ "/final_notes.json"

/-- Path of the transcript artifact (orchestrator.py:155, 184). -/
def transcriptPath (env : Env) (jobId : Nat) : String :=
  storagePath env jobId ++ "/transcript.json"

/-- `start_ocr_processing` (orchestrator.py:107-136): mark running, post the
video once (`max_attempts=1`), persist the artifact, flip to done and clear
the message; any failure flips the stage to failed, stamps the message
`"OCR: <error>"` and re-raises `"OCR processing failed: <error>"`. -/
def start_ocr_processing (env : Env) (s : OrchState) (jobId : Nat) :
    OrchState × Except String String × List CallEvent :=
  match getJob s jobId with
  | none => (s, Except.error ("Job " ++ toString jobId ++ " not found"), [])
  | some job =>
    let job1 : Job := { job with ocr_status := "running" }
    let s1 := putJob s job1
    let dr := post_with_files_retry (env.ocrUrl ++ "/process") env.ocrOutcomes 1
    let evs := List.replicate dr.2 CallEvent.ocr
    match dr.1 with
    | Except.error e =>
        (putJob s1 { job1 with ocr_status := "failed", status_message := some ("OCR: " ++ e) },
         Except.error ("OCR processing failed: " ++ e), evs)
    | Except.ok body =>
        match env.ocrPersist with
        | Except.error e =>
            (putJob s1 { job1 with ocr_status := "failed", status_message := some ("OCR: " ++ e) },
             Except.error ("OCR processing failed: " ++ e), evs)
        | Except.ok _ =>
            (putJob s1 { job1 with ocr_status := "done", status_message := none },
             Except.ok body, evs)

/-- `start_whisper_processing` (orchestrator.py:138-167), the transcription
twin of the OCR runner. -/
def start_whisper_processing (env : Env) (s : OrchState) (jobId : Nat) :
    OrchState × Except String String × List CallEvent :=
  match getJob s jobId with
  | none => (s, Except.error ("Job " ++ toString jobId ++ " not found"), [])
  | some job =>
    let job1 : Job := { job with whisper_status := "running" }
    let s1 := putJob s job1
    let dr := post_with_files_retry (env.whisperUrl ++ "/transcribe") env.whisperOutcomes 1
    let evs := List.replicate dr.2 CallEvent.whisper
    match dr.1 with
    | Except.error e =>
        (putJob s1 { job1 with whisper_status := "failed", status_message := some ("Whisper: " ++ e) },
         Except.error ("Whisper processing failed: " ++ e), evs)
    | Except.ok body =>
        match env.whisperPersist with
        | Except.error e =>
            (putJob s1 { job1 with whisper_status := "failed", status_message := some ("Whisper: " ++ e) },
             Except.error ("Whisper processing failed: " ++ e), evs)
        | Except.ok _ =>
            (putJob s1 { job1 with whisper_status := "done", status_message := none },
             Except.ok body, evs)

/-- Failure update of the LLM stage (orchestrator.py:219-223): stage failed,
overall status failed, message `"LLM: <error>"`. -/
def llmFailJob (j : Job) (e : String) : Job :=
  { j with llm_status := "failed", final_status := "failed",
           status_message := some ("LLM: " ++ e) }

/-- Replace the first lecture row satisfying `p` (the row
`Lecture.query.filter_by(job_id=job_id).first()` returns, mutated in place). -/
def updateFirstLecture (p : Lecture → Bool) (f : Lecture → Lecture) :
    List Lecture → List Lecture
  | [] => []
  | l :: ls => if p l then f l :: ls else l :: updateFirstLecture p f ls

/-- Field update performed on an existing Lecture (orchestrator.py:209-211). -/
def updateLecture (summary notesP transP : String) (l : Lecture) : Lecture :=
  { l with summary := summary, notes_path := notesP, transcript_path := transP }

/-- Lecture create-or-update of the LLM success path (orchestrator.py:204-211):
fetch the job's lecture; create it if absent, else update it. -/
def upsertLecture (s : OrchState) (jobId : Nat) (summary notesP transP : String) :
    OrchState :=
  match s.lectures.find? (fun l => l.job_id == jobId) with
  | some _ =>
      let updated := updateFirstLecture (fun l => l.job_id == jobId)
        (updateLecture summary notesP transP) s.lectures
      { s with lectures := updated }
  | none =>
      { s with
        lectures := s.lectures ++ [⟨s.nextLectureId, jobId, summary, notesP, transP⟩],
        nextLectureId := s.nextLectureId + 1 }

/-- `start_llm_processing` (orchestrator.py:169-224): precondition check, mark
running, read the two artifacts, post the JSON payload once, persist the final
notes, create-or-update the Lecture, flip stage and overall status to done;
any failure inside the try flips both to failed with message `"LLM: <error>"`. -/
def start_llm_processing (env : Env) (s : OrchState) (jobId : Nat) :
    OrchState × Except String String × List CallEvent :=
  match getJob s jobId with
  | none => (s, Except.error ("Job " ++ toString jobId ++ " not found"), [])
  | some job =>
    if job.ocr_status ≠ "done" ∨ job.whisper_status ≠ "done" then
      (s, Except.error "OCR and Whisper must be completed before LLM processing", [])
    else
      let job1 : Job := { job with llm_status := "running" }
      let s1 := putJob s job1
      match env.llmArtifactsRead with
      | Except.error e =>
          (putJob s1 (llmFailJob job1 e), Except.error ("LLM processing failed: " ++ e), [])
      | Except.ok _ =>
        let dr := make_request_post (env.llmUrl ++ "/process") env.llmOutcome
        let evs := List.replicate dr.2 CallEvent.llm
        match dr.1 with
        | Except.error e =>
            (putJob s1 (llmFailJob job1 e), Except.error ("LLM processing failed: " ++ e), evs)
        | Except.ok body =>
            match env.llmPersist with
            | Except.error e =>
                (putJob s1 (llmFailJob job1 e), Except.error ("LLM processing failed: " ++ e), evs)
            | Except.ok _ =>
                let s2 := upsertLecture s1 jobId env.llmSummary
                            (finalNotesPath env jobId) (transcriptPath env jobId)
                (putJob s2 { job1 with llm_status := "done", final_status := "done",
                                       status_message := none },
                 Except.ok body, evs)

/-- One poll-loop iteration body (orchestrator.py:282-287): the decision taken
on the reloaded Job, `none` meaning sleep-and-retry. -/
inductive PollOutcome where
  | cancelled
  | ready
  | stageFailed
  | timeout
deriving Repr, DecidableEq

/-- The if-chain inside the poll loop, in source order (orchestrator.py:282-287). -/
def pollStep (j : Job) : Option PollOutcome :=
  if j.final_status = "cancelled" then some PollOutcome.cancelled
  else if j.ocr_status = "done" ∧ j.whisper_status = "done" then some PollOutcome.ready
  else if j.ocr_status = "failed" ∨ j.whisper_status = "failed" then some PollOutcome.stageFailed
  else none

/-- The poll loop of `process_job` (orchestrator.py:279-292) over the stream of
Job rows it reloads: `fuel = max_poll_attempts - attempts`.  Running out of
fuel is the `attempts >= self.max_poll_attempts` timeout after the `while`;
the second component is the final value of the attempt counter. -/
def pollLoopGo (obs : Nat → Job) : Nat → Nat → PollOutcome × Nat
  | 0, attempts => (PollOutcome.timeout, attempts)
  | fuel + 1, attempts =>
    match pollStep (obs attempts) with
    | some r => (r, attempts)
    | none => pollLoopGo obs fuel (attempts + 1)

/-- Poll loop started with `attempts = 0`. -/
def pollLoop (obs : Nat → Job) (maxAttempts : Nat) : PollOutcome × Nat :=
  pollLoopGo obs maxAttempts 0

/-- Python truthiness of the `status_message` column as used by
`if not job.status_message` (orchestrator.py:306): `None` and the empty
string both count as unset. -/
def msgTruthy : Option String → Bool
  | none => false
  | some t => t != ""

/-- Body of the `except` block of `process_job` (orchestrator.py:303-314),
applied to the reloaded Job: nothing happens to an already-cancelled job;
otherwise overall status becomes failed, the message is set to the error text
unless a (truthy) message exists, and each stage still pending or running is
forced to failed. -/
def process_job_on_error (e : String) (j : Job) : Job :=
  if j.final_status = "cancelled" then j
  else
    { j with
      final_status := "failed",
      status_message := if msgTruthy j.status_message then j.status_message else some e,
      ocr_status :=
        if j.ocr_status = "pending" ∨ j.ocr_status = "running" then "failed" else j.ocr_status,
      whisper_status :=
        if j.whisper_status = "pending" ∨ j.whisper_status = "running" then "failed"
        else j.whisper_status,
      llm_status :=
        if j.llm_status = "pending" ∨ j.llm_status = "running" then "failed" else j.llm_status }

/-- Error message of the crash Python would produce if the catch-time reload
found no row (unreachable in this sequential model). -/
def noneReloadMsg : String :=
  "AttributeError: NoneType has no attribute final_status"

/-- The whole `except` clause of `process_job` (orchestrator.py:302-315):
reload the Job, apply `process_job_on_error`, commit, and re-raise the error
wrapped as `"Job processing failed: <error>"`. -/
def process_job_catch (jobId : Nat) (e : String) (s : OrchState)
    (evs : List CallEvent) : OrchState × Except String Bool × List CallEvent :=
  match getJob s jobId with
  | some j => (putJob s (process_job_on_error e j),
               Except.error ("Job processing failed: " ++ e), evs)
  | none => (s, Except.error noneReloadMsg, evs)

/-- Steps 2-3 of `process_job` after both fan-out runners have been joined
(orchestrator.py:273-301): propagate a captured runner error (OCR first),
run the poll loop, re-check cancellation, then run the LLM stage. -/
def process_job_after_fanout (env : Env) (s : OrchState) (jobId : Nat)
    (rOcr rWhisper : Except String String) (evs : List CallEvent) :
    OrchState × Except String Bool × List CallEvent :=
  match rOcr with
  | Except.error e => process_job_catch jobId e s evs
  | Except.ok _ =>
  match rWhisper with
  | Except.error e => process_job_catch jobId e s evs
  | Except.ok _ =>
  match getJob s jobId with
  | none => process_job_catch jobId noneReloadMsg s evs
  | some j2 =>
    match (pollLoop (fun _ => j2) env.maxPollAttempts).1 with
    | PollOutcome.cancelled => (s, Except.ok false, evs)
    | PollOutcome.stageFailed =>
        process_job_catch jobId "OCR or Whisper processing failed" s evs
    | PollOutcome.timeout =>
        process_job_catch jobId "Timeout waiting for OCR/Whisper to complete" s evs
    | PollOutcome.ready =>
      match getJob s jobId with
      | none => process_job_catch jobId noneReloadMsg s evs
      | some j3 =>
        if j3.final_status = "cancelled" then (s, Except.ok false, evs)
        else
          match start_llm_processing env s jobId with
          | (s3, Except.error e, evLlm) => process_job_catch jobId e s3 (evs ++ evLlm)
          | (s3, Except.ok _, evLlm) => (s3, Except.ok true, evs ++ evLlm)

/-- `process_job` (orchestrator.py:226-315): load the Job, return False on an
already-cancelled job (checkpoint A), run the two attachment stages (one legal
interleaving of the joined fan-out threads), then hand over to
`process_job_after_fanout`.  The boolean result is the Python return value. -/
def process_job (env : Env) (s : OrchState) (jobId : Nat) :
    OrchState × Except String Bool × List CallEvent :=
  match getJob s jobId with
  | none => (s, Except.error ("Job " ++ toString jobId ++ " not found"), [])
  | some job =>
    if job.final_status = "cancelled" then (s, Except.ok false, [])
    else
      match start_ocr_processing env s jobId with
      | (s1, rOcr, evOcr) =>
        match start_whisper_processing env s1 jobId with
        | (s2, rWhisper, evWhisper) =>
          process_job_after_fanout env s2 jobId rOcr rWhisper (evOcr ++ evWhisper)

/-- A Job as created by the upload handler (app.py:142, models.py defaults):
all stages pending, no message. -/
def freshJob (jobId userId : Nat) (videoPath : String) : Job :=
  { id := jobId, user_id := userId, video_path := videoPath,
    ocr_status := "pending", whisper_status := "pending", llm_status := "pending",
    final_status := "pending", status_message := none }

/-- Number of posts to a given stage endpoint in a call trace. -/
def countCalls (c : CallEvent) (evs : List CallEvent) : Nat :=
  (evs.filter (fun x => decide (x = c))).length

/-- Number of Lecture rows owned by a job. -/
def countLectures (s : OrchState) (jobId : Nat) : Nat :=
  (s.lectures.filter (fun l => l.job_id == jobId)).length

/-! ## Concrete fixtures used by witnesses and counterexamples -/

/-- A freshly uploaded job, as the upload handler creates it. -/
def jobW : Job := freshJob 1 1 "storage/job_1/video.mp4"

/-- Store holding the fresh job and no lectures. -/
def stateW : OrchState := { job := some jobW, lectures := [], nextLectureId := 1 }

/-- Oracle under which every external effect succeeds. -/
def envOk : Env :=
  { ocrUrl := "http://ocr", whisperUrl := "http://whisper", llmUrl := "http://llm",
    uploadFolder := "storage", maxPollAttempts := 3,
    ocrOutcomes := fun _ => AttemptOutcome.ok "ocr-result",
    whisperOutcomes := fun _ => AttemptOutcome.ok "whisper-result",
    ocrPersist := Except.ok (), whisperPersist := Except.ok (),
    llmArtifactsRead := Except.ok (), llmOutcome := AttemptOutcome.ok "llm-result",
    llmPersist := Except.ok (), llmSummary := "summary" }

/-- Oracle under which the OCR post times out while everything else succeeds. -/
def envOcrTimeout : Env :=
  { envOk with ocrOutcomes := fun _ => AttemptOutcome.timeout }

/-- Oracle under which the Whisper post times out while everything else succeeds. -/
def envWhisperTimeout : Env :=
  { envOk with whisperOutcomes := fun _ => AttemptOutcome.timeout }

/-- Oracle under which reading the LLM input artifacts fails. -/
def envLlmReadFail : Env :=
  { envOk with llmArtifactsRead := Except.error "No such file or directory" }

/-- A job whose extraction and transcription stages are done but whose overall
status was already flipped to cancelled by an external actor. -/
def jobCancelledBothDone : Job :=
  { jobW with ocr_status := "done", whisper_status := "done", final_status := "cancelled" }

/-- Store holding `jobCancelledBothDone`. -/
def stateCancelledBothDone : OrchState :=
  { job := some jobCancelledBothDone, lectures := [], nextLectureId := 1 }

/-! ## Store helper lemmas -/

theorem getJob_putJob (s : OrchState) (j : Job) (jid : Nat) :
    getJob (putJob s j) jid = if j.id = jid then some j else none := rfl

theorem putJob_putJob (s : OrchState) (a b : Job) :
    putJob (putJob s a) b = putJob s b := rfl

theorem putJob_lectures (s : OrchState) (j : Job) :
    (putJob s j).lectures = s.lectures := rfl

theorem getJob_some_elim {s : OrchState} {jid : Nat} {j : Job}
    (h : getJob s jid = some j) : s.job = some j ∧ j.id = jid := by
  unfold getJob at h
  cases hj : s.job with
  | none => rw [hj] at h; cases h
  | some j0 =>
    rw [hj] at h
    change (if j0.id = jid then some j0 else none) = some j at h
    by_cases hid : j0.id = jid
    · rw [if_pos hid] at h
      cases h
      exact ⟨rfl, hid⟩
    · rw [if_neg hid] at h
      cases h

/-! ## Request helper lemmas -/

theorem post_with_files_retry_once (url : String) (outcomes : Nat → AttemptOutcome) :
    (post_with_files_retry url outcomes 1).2 = 1 := by
  unfold post_with_files_retry postFilesGo
  cases outcomes 0 <;> simp
  split <;> rfl

theorem countCalls_append (c : CallEvent) (a b : List CallEvent) :
    countCalls c (a ++ b) = countCalls c a + countCalls c b := by
  unfold countCalls
  rw [List.filter_append, List.length_append]

theorem make_request_post_once (url : String) (o : AttemptOutcome) :
    (make_request_post url o).2 = 1 := by
  unfold make_request_post
  cases o <;> simp
  split <;> rfl

/-! ## Stage runner characterizations -/

theorem start_ocr_cases (env : Env) (s : OrchState) (jid : Nat) (j : Job)
    (h : getJob s jid = some j) :
    (∃ e, start_ocr_processing env s jid =
        (putJob s { j with ocr_status := "failed", status_message := some ("OCR: " ++ e) },
         Except.error ("OCR processing failed: " ++ e), [CallEvent.ocr]))
    ∨ (∃ b, start_ocr_processing env s jid =
        (putJob s { j with ocr_status := "done", status_message := none },
         Except.ok b, [CallEvent.ocr])) := by
  have hn := post_with_files_retry_once (env.ocrUrl ++ "/process") env.ocrOutcomes
  simp only [start_ocr_processing, h]
  rcases hd : post_with_files_retry (env.ocrUrl ++ "/process") env.ocrOutcomes 1 with ⟨r, n⟩
  rw [hd] at hn
  simp at hn
  subst hn
  rcases r with e | b
  · left
    exact ⟨e, rfl⟩
  · rcases hp : env.ocrPersist with e | u
    · left
      exact ⟨e, rfl⟩
    · right
      exact ⟨b, rfl⟩

theorem start_whisper_cases (env : Env) (s : OrchState) (jid : Nat) (j : Job)
    (h : getJob s jid = some j) :
    (∃ e, start_whisper_processing env s jid =
        (putJob s { j with whisper_status := "failed", status_message := some ("Whisper: " ++ e) },
         Except.error ("Whisper processing failed: " ++ e), [CallEvent.whisper]))
    ∨ (∃ b, start_whisper_processing env s jid =
        (putJob s { j with whisper_status := "done", status_message := none },
         Except.ok b, [CallEvent.whisper])) := by
  have hn := post_with_files_retry_once (env.whisperUrl ++ "/transcribe") env.whisperOutcomes
  simp only [start_whisper_processing, h]
  rcases hd : post_with_files_retry (env.whisperUrl ++ "/transcribe") env.whisperOutcomes 1 with ⟨r, n⟩
  rw [hd] at hn
  simp at hn
  subst hn
  rcases r with e | b
  · left
    exact ⟨e, rfl⟩
  · rcases hp : env.whisperPersist with e | u
    · left
      exact ⟨e, rfl⟩
    · right
      exact ⟨b, rfl⟩

theorem start_llm_cases (env : Env) (s : OrchState) (jid : Nat) (j : Job)
    (h : getJob s jid = some j) :
    (¬ (j.ocr_status = "done" ∧ j.whisper_status = "done") ∧
      start_llm_processing env s jid =
        (s, Except.error "OCR and Whisper must be completed before LLM processing", []))
    ∨ (j.ocr_status = "done" ∧ j.whisper_status = "done" ∧
       ∃ e evs, start_llm_processing env s jid =
          (putJob s (llmFailJob { j with llm_status := "running" } e),
           Except.error ("LLM processing failed: " ++ e), evs) ∧
         (evs = [] ∨ evs = [CallEvent.llm]))
    ∨ (j.ocr_status = "done" ∧ j.whisper_status = "done" ∧
       ∃ b, start_llm_processing env s jid =
          (putJob (upsertLecture (putJob s { j with llm_status := "running" }) jid env.llmSummary
              (finalNotesPath env jid) (transcriptPath env jid))
            { j with llm_status := "done", final_status := "done", status_message := none },
           Except.ok b, [CallEvent.llm])) := by
  by_cases hpre : j.ocr_status = "done" ∧ j.whisper_status = "done"
  · have hcond : ¬ (j.ocr_status ≠ "done" ∨ j.whisper_status ≠ "done") := by
      push_neg
      exact ⟨hpre.1, hpre.2⟩
    have hn := make_request_post_once (env.llmUrl ++ "/process") env.llmOutcome
    simp only [start_llm_processing, h, if_neg hcond]
    rcases ha : env.llmArtifactsRead with e | u
    · right; left
      exact ⟨hpre.1, hpre.2, e, [], rfl, Or.inl rfl⟩
    · rcases hd : make_request_post (env.llmUrl ++ "/process") env.llmOutcome with ⟨r, n⟩
      rw [hd] at hn
      simp at hn
      subst hn
      rcases r with e | b
      · right; left
        exact ⟨hpre.1, hpre.2, e, [CallEvent.llm], rfl, Or.inr rfl⟩
      · rcases hp : env.llmPersist with e | u
        · right; left
          exact ⟨hpre.1, hpre.2, e, [CallEvent.llm], rfl, Or.inr rfl⟩
        · right; right
          exact ⟨hpre.1, hpre.2, b, rfl⟩
  · left
    refine ⟨hpre, ?_⟩
    have hcond : j.ocr_status ≠ "done" ∨ j.whisper_status ≠ "done" := by
      by_contra hc
      push_neg at hc
      exact hpre ⟨hc.1, hc.2⟩
    simp only [start_llm_processing, h, if_pos hcond]

/-! ## Poll loop lemmas -/

theorem pollLoopGo_none (obs : Nat → Job) (fuel : Nat) :
    ∀ a : Nat, (∀ i, i < fuel → pollStep (obs (a + i)) = none) →
      pollLoopGo obs fuel a = (PollOutcome.timeout, a + fuel) := by
  induction fuel with
  | zero => intro a _; simp [pollLoopGo]
  | succ k ih =>
    intro a h
    have h0 : pollStep (obs a) = none := by
      have := h 0 (Nat.succ_pos k)
      simpa using this
    have hrest : ∀ i, i < k → pollStep (obs (a + 1 + i)) = none := by
      intro i hi
      have e2 : a + 1 + i = a + (i + 1) := by omega
      rw [e2]
      exact h (i + 1) (by omega)
    have e1 : a + 1 + k = a + (k + 1) := by omega
    simp only [pollLoopGo, h0]
    rw [ih (a + 1) hrest, e1]

theorem pollLoopGo_hit (obs : Nat → Job) (fuel : Nat) :
    ∀ a i r, i < fuel → (∀ k, k < i → pollStep (obs (a + k)) = none) →
      pollStep (obs (a + i)) = some r →
      pollLoopGo obs fuel a = (r, a + i) := by
  induction fuel with
  | zero => intro a i r hi _ _; exact absurd hi (Nat.not_lt_zero i)
  | succ f ih =>
    intro a i r hi hnone hr
    cases i with
    | zero =>
      have h0 : pollStep (obs a) = some r := by simpa using hr
      simp [pollLoopGo, h0]
    | succ i' =>
      have h0 : pollStep (obs a) = none := by
        have := hnone 0 (Nat.succ_pos i')
        simpa using this
      have hnone' : ∀ k, k < i' → pollStep (obs (a + 1 + k)) = none := by
        intro k hk
        have e2 : a + 1 + k = a + (k + 1) := by omega
        rw [e2]
        exact hnone (k + 1) (by omega)
      have e1 : a + 1 + i' = a + (i' + 1) := by omega
      have hr' : pollStep (obs (a + 1 + i')) = some r := by rw [e1]; exact hr
      simp only [pollLoopGo, h0]
      rw [ih (a + 1) i' r (by omega) hnone' hr', e1]

/-! ## Error aggregation lemmas -/

theorem process_job_on_error_id (e : String) (j : Job) :
    (process_job_on_error e j).id = j.id := by
  unfold process_job_on_error
  split <;> rfl

theorem process_job_on_error_final_cases (e : String) (j : Job) :
    ((process_job_on_error e j).final_status = "failed" ∧ j.final_status ≠ "cancelled")
    ∨ (process_job_on_error e j = j ∧ j.final_status = "cancelled") := by
  unfold process_job_on_error
  split
  · right
    exact ⟨rfl, by assumption⟩
  · left
    exact ⟨rfl, by assumption⟩

theorem process_job_catch_trace (jid : Nat) (e : String) (s : OrchState)
    (evs : List CallEvent) : (process_job_catch jid e s evs).2.2 = evs := by
  unfold process_job_catch
  split <;> rfl

theorem process_job_catch_lectures (jid : Nat) (e : String) (s : OrchState)
    (evs : List CallEvent) : ((process_job_catch jid e s evs).1).lectures = s.lectures := by
  unfold process_job_catch
  split <;> rfl

theorem process_job_catch_final (jid : Nat) (e : String) (s : OrchState)
    (evs : List CallEvent) (j' : Job)
    (h : getJob ((process_job_catch jid e s evs).1) jid = some j') :
    j'.final_status = "failed" ∨ j'.final_status = "cancelled" := by
  unfold process_job_catch at h
  cases hg : getJob s jid with
  | none =>
    rw [hg] at h
    simp only [] at h
    rw [hg] at h
    cases h
  | some j0 =>
    rw [hg] at h
    simp only [] at h
    have hid : (process_job_on_error e j0).id = jid := by
      rw [process_job_on_error_id]
      exact (getJob_some_elim hg).2
    rw [getJob_putJob, if_pos hid] at h
    cases h
    rcases process_job_on_error_final_cases e j0 with ⟨hf, _⟩ | ⟨heq, hc⟩
    · left
      exact hf
    · right
      rw [heq, hc]

/-! ## Call-count lemmas -/

theorem countCalls_ne_replicate (c d : CallEvent) (h : d ≠ c) (n : Nat) :
    countCalls c (List.replicate n d) = 0 := by
  induction n with
  | zero => rfl
  | succ k ih =>
    unfold countCalls at ih ⊢
    rw [List.replicate_succ, List.filter_cons]
    simp only [decide_eq_true_eq, if_neg h]
    exact ih

theorem start_llm_trace (env : Env) (s : OrchState) (jid : Nat) :
    countCalls CallEvent.ocr ((start_llm_processing env s jid).2.2) = 0 ∧
    countCalls CallEvent.whisper ((start_llm_processing env s jid).2.2) = 0 := by
  unfold start_llm_processing
  cases hg : getJob s jid with
  | none => exact ⟨rfl, rfl⟩
  | some j =>
    dsimp only
    by_cases hc : j.ocr_status ≠ "done" ∨ j.whisper_status ≠ "done"
    · rw [if_pos hc]
      exact ⟨rfl, rfl⟩
    · rw [if_neg hc]
      cases ha : env.llmArtifactsRead with
      | error e => exact ⟨rfl, rfl⟩
      | ok u =>
        dsimp only
        constructor
        · rcases hd : (make_request_post (env.llmUrl ++ "/process") env.llmOutcome).1 with e | b
          · exact countCalls_ne_replicate _ _ (by decide) _
          · cases env.llmPersist
            · exact countCalls_ne_replicate _ _ (by decide) _
            · exact countCalls_ne_replicate _ _ (by decide) _
        · rcases hd : (make_request_post (env.llmUrl ++ "/process") env.llmOutcome).1 with e | b
          · exact countCalls_ne_replicate _ _ (by decide) _
          · cases env.llmPersist
            · exact countCalls_ne_replicate _ _ (by decide) _
            · exact countCalls_ne_replicate _ _ (by decide) _

theorem process_job_after_fanout_trace (env : Env) (s : OrchState) (jid : Nat)
    (a b : Except String String) (evs : List CallEvent) :
    countCalls CallEvent.ocr ((process_job_after_fanout env s jid a b evs).2.2) =
      countCalls CallEvent.ocr evs ∧
    countCalls CallEvent.whisper ((process_job_after_fanout env s jid a b evs).2.2) =
      countCalls CallEvent.whisper evs := by
  unfold process_job_after_fanout
  rcases a with e | va
  · simp [process_job_catch_trace]
  rcases b with e | vb
  · simp [process_job_catch_trace]
  cases hg : getJob s jid with
  | none => simp [process_job_catch_trace]
  | some j2 =>
    dsimp only
    cases hp : (pollLoop (fun _ => j2) env.maxPollAttempts).1 with
    | cancelled => exact ⟨rfl, rfl⟩
    | stageFailed => simp [process_job_catch_trace]
    | timeout => simp [process_job_catch_trace]
    | ready =>
      dsimp only
      by_cases hc : j2.final_status = "cancelled"
      · rw [if_pos hc]
        exact ⟨rfl, rfl⟩
      · rw [if_neg hc]
        have htr := start_llm_trace env s jid
        rcases hl : start_llm_processing env s jid with ⟨s3, rl, evl⟩
        rw [hl] at htr
        dsimp only at htr
        rcases rl with e | vl
        · simp [process_job_catch_trace, countCalls_append, htr.1, htr.2]
        · simp [countCalls_append, htr.1, htr.2]

/-! ## Lecture table lemmas -/

theorem updateLecture_job_id (sum n t : String) (l : Lecture) :
    (updateLecture sum n t l).job_id = l.job_id := rfl

theorem updateLecture_id (sum n t : String) (l : Lecture) :
    (updateLecture sum n t l).id = l.id := rfl

theorem updateFirstLecture_filter_length (p q : Lecture → Bool) (f : Lecture → Lecture)
    (hf : ∀ l, q (f l) = q l) (L : List Lecture) :
    ((updateFirstLecture p f L).filter q).length = (L.filter q).length := by
  induction L with
  | nil => rfl
  | cons l ls ih =>
    unfold updateFirstLecture
    by_cases hp : p l
    · rw [if_pos hp]
      rw [List.filter_cons, List.filter_cons, hf l]
      cases q l <;> simp
    · rw [if_neg hp]
      rw [List.filter_cons, List.filter_cons]
      cases q l <;> simp [ih]

theorem updateFirstLecture_map_id (p : Lecture → Bool) (f : Lecture → Lecture)
    (hf : ∀ l, (f l).id = l.id) (L : List Lecture) :
    (updateFirstLecture p f L).map Lecture.id = L.map Lecture.id := by
  induction L with
  | nil => rfl
  | cons l ls ih =>
    unfold updateFirstLecture
    by_cases hp : p l
    · rw [if_pos hp]
      simp [hf l]
    · rw [if_neg hp]
      simp [ih]

theorem updateFirstLecture_find? (p : Lecture → Bool) (f : Lecture → Lecture)
    (hf : ∀ l, p (f l) = p l) (L : List Lecture) (l0 : Lecture)
    (h : L.find? p = some l0) :
    (updateFirstLecture p f L).find? p = some (f l0) := by
  induction L with
  | nil => cases h
  | cons l ls ih =>
    by_cases hp : p l
    · rw [List.find?_cons_of_pos _ hp] at h
      cases h
      unfold updateFirstLecture
      rw [if_pos hp]
      exact List.find?_cons_of_pos _ (by rw [hf]; exact hp)
    · rw [List.find?_cons_of_neg _ hp] at h
      unfold updateFirstLecture
      rw [if_neg hp, List.find?_cons_of_neg _ hp]
      exact ih h

theorem upsertLecture_lectures_none (s : OrchState) (jid : Nat) (sum n t : String)
    (hf : s.lectures.find? (fun l => l.job_id == jid) = none) :
    (upsertLecture s jid sum n t).lectures =
      s.lectures ++ [⟨s.nextLectureId, jid, sum, n, t⟩] := by
  unfold upsertLecture
  rw [hf]

theorem upsertLecture_lectures_some (s : OrchState) (jid : Nat) (sum n t : String)
    (l0 : Lecture) (hf : s.lectures.find? (fun l => l.job_id == jid) = some l0) :
    (upsertLecture s jid sum n t).lectures =
      updateFirstLecture (fun l => l.job_id == jid) (updateLecture sum n t) s.lectures := by
  unfold upsertLecture
  rw [hf]

theorem countLectures_upsert_le (s : OrchState) (jid k : Nat) (sum n t : String)
    (h : countLectures s k ≤ 1) : countLectures (upsertLecture s jid sum n t) k ≤ 1 := by
  unfold countLectures at h ⊢
  cases hf : s.lectures.find? (fun l => l.job_id == jid) with
  | some l0 =>
    rw [upsertLecture_lectures_some s jid sum n t l0 hf]
    rw [updateFirstLecture_filter_length (fun l => l.job_id == jid) (fun l => l.job_id == k)
      (updateLecture sum n t) (fun l => rfl) s.lectures]
    exact h
  | none =>
    rw [upsertLecture_lectures_none s jid sum n t hf]
    rw [List.filter_append, List.length_append]
    have hnone := List.find?_eq_none.mp hf
    by_cases hk : k = jid
    · subst hk
      have hz : s.lectures.filter (fun l => l.job_id == k) = [] := by
        rw [List.filter_eq_nil_iff]
        exact fun a ha => hnone a ha
      rw [hz]
      simp
    · have hz : (([⟨s.nextLectureId, jid, sum, n, t⟩] : List Lecture).filter
          (fun l => l.job_id == k)).length = 0 := by
        simp [Ne.symm hk]
      omega

theorem getJob_putJob_eq (s : OrchState) (j' : Job) (jid : Nat) (hid : j'.id = jid) :
    getJob (putJob s j') jid = some j' := by
  rw [getJob_putJob, if_pos hid]

theorem getJob_putJob_some {s : OrchState} {j : Job} {jid : Nat} {j' : Job}
    (h : getJob (putJob s j) jid = some j') : j' = j := by
  rw [getJob_putJob] at h
  split at h
  · cases h
    rfl
  · cases h

theorem countLectures_eq_of_lectures {x y : OrchState} (h : x.lectures = y.lectures)
    (k : Nat) : countLectures x k = countLectures y k := by
  unfold countLectures
  rw [h]

theorem llm_final_done_aux (env : Env) (s : OrchState) (jid : Nat) (j j' : Job)
    (h : getJob s jid = some j) (hnd : j.final_status ≠ "done")
    (hres : getJob ((start_llm_processing env s jid).1) jid = some j')
    (hdone : j'.final_status = "done") :
    j'.ocr_status = "done" ∧ j'.whisper_status = "done" ∧ j'.llm_status = "done" := by
  have hid : j.id = jid := (getJob_some_elim h).2
  rcases start_llm_cases env s jid j h with ⟨hpre, heq⟩ | ⟨ho, hw, e, evs, heq, _⟩ |
    ⟨ho, hw, b, heq⟩
  · rw [heq] at hres
    dsimp only at hres
    rw [h] at hres
    cases hres
    exact absurd hdone hnd
  · rw [heq] at hres
    dsimp only at hres
    have hj := getJob_putJob_some hres
    subst hj
    have hfd : ("failed" : String) = "done" := hdone
    exact absurd hfd (by decide)
  · rw [heq] at hres
    dsimp only at hres
    have hj := getJob_putJob_some hres
    subst hj
    exact ⟨ho, hw, rfl⟩

theorem fanout_final_done_aux (env : Env) (s : OrchState) (jid : Nat) (j2 j' : Job)
    (r1 r2 : Except String String) (evs : List CallEvent)
    (h2 : getJob s jid = some j2) (hnd : j2.final_status ≠ "done")
    (hres : getJob ((process_job_after_fanout env s jid r1 r2 evs).1) jid = some j')
    (hdone : j'.final_status = "done") :
    j'.ocr_status = "done" ∧ j'.whisper_status = "done" ∧ j'.llm_status = "done" := by
  unfold process_job_after_fanout at hres
  rcases r1 with e | v1
  · rcases process_job_catch_final jid e s evs j' hres with hf | hf <;>
      rw [hdone] at hf <;> exact absurd hf (by decide)
  rcases r2 with e | v2
  · rcases process_job_catch_final jid e s evs j' hres with hf | hf <;>
      rw [hdone] at hf <;> exact absurd hf (by decide)
  rw [h2] at hres
  dsimp only at hres
  cases hp : (pollLoop (fun _ => j2) env.maxPollAttempts).1 with
  | cancelled =>
    rw [hp] at hres
    dsimp only at hres
    rw [h2] at hres
    cases hres
    exact absurd hdone hnd
  | stageFailed =>
    rw [hp] at hres
    dsimp only at hres
    rcases process_job_catch_final jid _ s evs j' hres with hf | hf <;>
      rw [hdone] at hf <;> exact absurd hf (by decide)
  | timeout =>
    rw [hp] at hres
    dsimp only at hres
    rcases process_job_catch_final jid _ s evs j' hres with hf | hf <;>
      rw [hdone] at hf <;> exact absurd hf (by decide)
  | ready =>
    rw [hp] at hres
    dsimp only at hres
    by_cases hc : j2.final_status = "cancelled"
    · rw [if_pos hc] at hres
      dsimp only at hres
      rw [h2] at hres
      cases hres
      exact absurd hdone hnd
    · rw [if_neg hc] at hres
      rcases hl : start_llm_processing env s jid with ⟨s3, rl, evl⟩
      rw [hl] at hres
      rcases rl with e | vl
      · dsimp only at hres
        rcases process_job_catch_final jid e s3 (evs ++ evl) j' hres with hf | hf <;>
          rw [hdone] at hf <;> exact absurd hf (by decide)
      · dsimp only at hres
        have hres' : getJob ((start_llm_processing env s jid).1) jid = some j' := by
          rw [hl]
          exact hres
        exact llm_final_done_aux env s jid j2 j' h2 hnd hres' hdone

theorem start_llm_countLectures_le (env : Env) (s : OrchState) (jid k : Nat)
    (h : countLectures s k ≤ 1) :
    countLectures ((start_llm_processing env s jid).1) k ≤ 1 := by
  cases hg : getJob s jid with
  | none =>
    have hs : (start_llm_processing env s jid).1 = s := by
      unfold start_llm_processing
      rw [hg]
    rw [hs]
    exact h
  | some j =>
    rcases start_llm_cases env s jid j hg with ⟨_, heq⟩ | ⟨_, _, e, evs, heq, _⟩ |
      ⟨_, _, b, heq⟩ <;> rw [heq]
    · exact h
    · exact h
    · exact countLectures_upsert_le (putJob s { j with llm_status := "running" }) jid k
        env.llmSummary (finalNotesPath env jid) (transcriptPath env jid) h

theorem fanout_countLectures_le (env : Env) (s : OrchState) (jid k : Nat)
    (r1 r2 : Except String String) (evs : List CallEvent)
    (h : countLectures s k ≤ 1) :
    countLectures ((process_job_after_fanout env s jid r1 r2 evs).1) k ≤ 1 := by
  unfold process_job_after_fanout
  rcases r1 with e | v1
  · unfold countLectures
    rw [process_job_catch_lectures]
    exact h
  rcases r2 with e | v2
  · unfold countLectures
    rw [process_job_catch_lectures]
    exact h
  cases hg : getJob s jid with
  | none =>
    unfold countLectures
    rw [process_job_catch_lectures]
    exact h
  | some j2 =>
    dsimp only
    cases hp : (pollLoop (fun _ => j2) env.maxPollAttempts).1 with
    | cancelled => exact h
    | stageFailed =>
      unfold countLectures
      rw [process_job_catch_lectures]
      exact h
    | timeout =>
      unfold countLectures
      rw [process_job_catch_lectures]
      exact h
    | ready =>
      dsimp only
      by_cases hc : j2.final_status = "cancelled"
      · rw [if_pos hc]
        exact h
      · rw [if_neg hc]
        have h3 := start_llm_countLectures_le env s jid k h
        rcases hl : start_llm_processing env s jid with ⟨s3, rl, evl⟩
        rw [hl] at h3
        rcases rl with e | vl
        · dsimp only
          unfold countLectures
          rw [process_job_catch_lectures]
          exact h3
        · exact h3

/-! ## Claim theorems -/

/-- Claim C3: for every job in which the extraction stage status or the
transcription stage status is not done, invoking the synthesis stage runner
`start_llm_processing` fails fast with the precondition error (the
`ValueError` the spec calls PreconditionFailed), makes zero calls to the
synthesis endpoint, and leaves the store untouched. -/
theorem llm_precondition_blocks_dispatch (env : Env) (s : OrchState) (jid : Nat)
    (j : Job) (h : getJob s jid = some j)
    (hpre : j.ocr_status ≠ "done" ∨ j.whisper_status ≠ "done") :
    start_llm_processing env s jid =
      (s, Except.error "OCR and Whisper must be completed before LLM processing", []) := by
  simp only [start_llm_processing, h, if_pos hpre]

/-- Witness for C3 at a concrete input: a fresh job (all stages pending). -/
theorem llm_precondition_blocks_dispatch_witness :
    start_llm_processing envOk stateW 1 =
      (stateW, Except.error "OCR and Whisper must be completed before LLM processing", []) :=
  llm_precondition_blocks_dispatch envOk stateW 1 jobW rfl (Or.inl (by decide))

/-- Claim C8: for every job whose overall status is already cancelled when
`process_job` is invoked, it returns False at checkpoint A, performs no
endpoint call, and leaves the store untouched. -/
theorem process_job_cancelled_returns_false (env : Env) (s : OrchState)
    (jid : Nat) (j : Job) (h : getJob s jid = some j)
    (hc : j.final_status = "cancelled") :
    process_job env s jid = (s, Except.ok false, []) := by
  simp only [process_job, h, if_pos hc]

/-- Witness for C8 at a concrete input. -/
theorem process_job_cancelled_returns_false_witness :
    process_job envOk stateCancelledBothDone 1 = (stateCancelledBothDone, Except.ok false, []) :=
  process_job_cancelled_returns_false envOk stateCancelledBothDone 1
    jobCancelledBothDone rfl (by decide)

/-- Claim C7: for every stage runner invocation (extraction or transcription)
in which the dispatch or the artifact persistence fails, the runner sets that
stage status to failed, sets the status message to the stage-prefixed string,
commits, and re-raises the error to its caller.  The four conjuncts cover
dispatch failure and persistence failure for each of the two runners. -/
theorem stage_runner_failure_persists_and_reraises :
    (∀ (env : Env) (s : OrchState) (jid : Nat) (j : Job) (e : String),
      getJob s jid = some j →
      (post_with_files_retry (env.ocrUrl ++ "/process") env.ocrOutcomes 1).1 =
        Except.error e →
      start_ocr_processing env s jid =
        (putJob s { j with ocr_status := "failed", status_message := some ("OCR: " ++ e) },
         Except.error ("OCR processing failed: " ++ e), [CallEvent.ocr]))
    ∧ (∀ (env : Env) (s : OrchState) (jid : Nat) (j : Job) (b e : String),
      getJob s jid = some j →
      (post_with_files_retry (env.ocrUrl ++ "/process") env.ocrOutcomes 1).1 =
        Except.ok b →
      env.ocrPersist = Except.error e →
      start_ocr_processing env s jid =
        (putJob s { j with ocr_status := "failed", status_message := some ("OCR: " ++ e) },
         Except.error ("OCR processing failed: " ++ e), [CallEvent.ocr]))
    ∧ (∀ (env : Env) (s : OrchState) (jid : Nat) (j : Job) (e : String),
      getJob s jid = some j →
      (post_with_files_retry (env.whisperUrl ++ "/transcribe") env.whisperOutcomes 1).1 =
        Except.error e →
      start_whisper_processing env s jid =
        (putJob s { j with whisper_status := "failed",
                           status_message := some ("Whisper: " ++ e) },
         Except.error ("Whisper processing failed: " ++ e), [CallEvent.whisper]))
    ∧ (∀ (env : Env) (s : OrchState) (jid : Nat) (j : Job) (b e : String),
      getJob s jid = some j →
      (post_with_files_retry (env.whisperUrl ++ "/transcribe") env.whisperOutcomes 1).1 =
        Except.ok b →
      env.whisperPersist = Except.error e →
      start_whisper_processing env s jid =
        (putJob s { j with whisper_status := "failed",
                           status_message := some ("Whisper: " ++ e) },
         Except.error ("Whisper processing failed: " ++ e), [CallEvent.whisper])) := by
  refine ⟨?_, ?_, ?_, ?_⟩
  · intro env s jid j e h hdisp
    have hn := post_with_files_retry_once (env.ocrUrl ++ "/process") env.ocrOutcomes
    simp only [start_ocr_processing, h]
    rcases hd : post_with_files_retry (env.ocrUrl ++ "/process") env.ocrOutcomes 1 with ⟨r, n⟩
    rw [hd] at hn hdisp
    dsimp only at hn hdisp
    subst hn
    subst hdisp
    rfl
  · intro env s jid j b e h hdisp hp
    have hn := post_with_files_retry_once (env.ocrUrl ++ "/process") env.ocrOutcomes
    simp only [start_ocr_processing, h]
    rcases hd : post_with_files_retry (env.ocrUrl ++ "/process") env.ocrOutcomes 1 with ⟨r, n⟩
    rw [hd] at hn hdisp
    dsimp only at hn hdisp
    subst hn
    subst hdisp
    rw [hp]
    rfl
  · intro env s jid j e h hdisp
    have hn := post_with_files_retry_once (env.whisperUrl ++ "/transcribe") env.whisperOutcomes
    simp only [start_whisper_processing, h]
    rcases hd : post_with_files_retry (env.whisperUrl ++ "/transcribe") env.whisperOutcomes 1
      with ⟨r, n⟩
    rw [hd] at hn hdisp
    dsimp only at hn hdisp
    subst hn
    subst hdisp
    rfl
  · intro env s jid j b e h hdisp hp
    have hn := post_with_files_retry_once (env.whisperUrl ++ "/transcribe") env.whisperOutcomes
    simp only [start_whisper_processing, h]
    rcases hd : post_with_files_retry (env.whisperUrl ++ "/transcribe") env.whisperOutcomes 1
      with ⟨r, n⟩
    rw [hd] at hn hdisp
    dsimp only at hn hdisp
    subst hn
    subst hdisp
    rw [hp]
    rfl

/-- The job row expected after the OCR dispatch of the fresh job times out. -/
def jobOcrFailedW : Job :=
  { jobW with ocr_status := "failed", status_message := some ("OCR: " ++ serviceTimeoutMsg "http://ocr/process") }

/-- Witness for C7 at a concrete input: the OCR dispatch times out. -/
theorem stage_runner_failure_persists_and_reraises_witness :
    start_ocr_processing envOcrTimeout stateW 1 =
      (putJob stateW jobOcrFailedW,
       Except.error ("OCR processing failed: " ++ serviceTimeoutMsg "http://ocr/process"),
       [CallEvent.ocr]) :=
  stage_runner_failure_persists_and_reraises.1 envOcrTimeout stateW 1 jobW
    (serviceTimeoutMsg "http://ocr/process") rfl rfl

/-- Claim C5: when an unhandled error reaches the top of `process_job` on a
job that is not cancelled, the except block commits a row with overall status
failed, sets the status message to the error text only when no (truthy)
message is already set, forces every stage still pending or running to
failed, leaves stages already done untouched, and re-raises the error
(wrapped as the Python code wraps it). -/
theorem process_job_error_aggregation (e : String) (s : OrchState) (jid : Nat)
    (j : Job) (evs : List CallEvent)
    (h : getJob s jid = some j) (hnc : j.final_status ≠ "cancelled") :
    process_job_catch jid e s evs =
      (putJob s (process_job_on_error e j),
       Except.error ("Job processing failed: " ++ e), evs)
    ∧ (process_job_on_error e j).final_status = "failed"
    ∧ (process_job_on_error e j).status_message =
        (if msgTruthy j.status_message then j.status_message else some e)
    ∧ ((j.ocr_status = "pending" ∨ j.ocr_status = "running") →
        (process_job_on_error e j).ocr_status = "failed")
    ∧ (¬ (j.ocr_status = "pending" ∨ j.ocr_status = "running") →
        (process_job_on_error e j).ocr_status = j.ocr_status)
    ∧ ((j.whisper_status = "pending" ∨ j.whisper_status = "running") →
        (process_job_on_error e j).whisper_status = "failed")
    ∧ (¬ (j.whisper_status = "pending" ∨ j.whisper_status = "running") →
        (process_job_on_error e j).whisper_status = j.whisper_status)
    ∧ ((j.llm_status = "pending" ∨ j.llm_status = "running") →
        (process_job_on_error e j).llm_status = "failed")
    ∧ (¬ (j.llm_status = "pending" ∨ j.llm_status = "running") →
        (process_job_on_error e j).llm_status = j.llm_status) := by
  refine ⟨?_, ?_, ?_, ?_, ?_, ?_, ?_, ?_, ?_⟩
  · unfold process_job_catch
    rw [h]
  · unfold process_job_on_error
    rw [if_neg hnc]
  · unfold process_job_on_error
    rw [if_neg hnc]
  · intro hp
    unfold process_job_on_error
    rw [if_neg hnc]
    dsimp only
    rw [if_pos hp]
  · intro hp
    unfold process_job_on_error
    rw [if_neg hnc]
    dsimp only
    rw [if_neg hp]
  · intro hp
    unfold process_job_on_error
    rw [if_neg hnc]
    dsimp only
    rw [if_pos hp]
  · intro hp
    unfold process_job_on_error
    rw [if_neg hnc]
    dsimp only
    rw [if_neg hp]
  · intro hp
    unfold process_job_on_error
    rw [if_neg hnc]
    dsimp only
    rw [if_pos hp]
  · intro hp
    unfold process_job_on_error
    rw [if_neg hnc]
    dsimp only
    rw [if_neg hp]

/-- Witness for C5 at a concrete input: a fresh (pending, uncancelled) job. -/
theorem process_job_error_aggregation_witness :
    process_job_catch 1 "boom" stateW [] =
      (putJob stateW (process_job_on_error "boom" jobW),
       Except.error ("Job processing failed: " ++ "boom"), [])
    ∧ (process_job_on_error "boom" jobW).final_status = "failed"
    ∧ (process_job_on_error "boom" jobW).status_message =
        (if msgTruthy jobW.status_message then jobW.status_message else some "boom")
    ∧ ((jobW.ocr_status = "pending" ∨ jobW.ocr_status = "running") →
        (process_job_on_error "boom" jobW).ocr_status = "failed")
    ∧ (¬ (jobW.ocr_status = "pending" ∨ jobW.ocr_status = "running") →
        (process_job_on_error "boom" jobW).ocr_status = jobW.ocr_status)
    ∧ ((jobW.whisper_status = "pending" ∨ jobW.whisper_status = "running") →
        (process_job_on_error "boom" jobW).whisper_status = "failed")
    ∧ (¬ (jobW.whisper_status = "pending" ∨ jobW.whisper_status = "running") →
        (process_job_on_error "boom" jobW).whisper_status = jobW.whisper_status)
    ∧ ((jobW.llm_status = "pending" ∨ jobW.llm_status = "running") →
        (process_job_on_error "boom" jobW).llm_status = "failed")
    ∧ (¬ (jobW.llm_status = "pending" ∨ jobW.llm_status = "running") →
        (process_job_on_error "boom" jobW).llm_status = jobW.llm_status) :=
  process_job_error_aggregation "boom" stateW 1 jobW [] rfl (by decide)

/-- Claim C6: each iteration of the poll loop of `process_job` follows the
source algorithm on the stream of reloaded Job rows: the loop returns the
first decision of `pollStep` (cancelled beats ready beats stage-failure, in
that if-chain order) at the first iteration whose reloaded row decides, with
the attempt counter equal to that iteration index; and if no iteration up to
the configured maximum decides, it raises Timeout with the counter at the
maximum. -/
theorem poll_loop_first_decision (obs : Nat → Job) (maxA : Nat) :
    ((∀ i, i < maxA → pollStep (obs i) = none) →
      pollLoop obs maxA = (PollOutcome.timeout, maxA))
    ∧ (∀ i r, i < maxA → (∀ k, k < i → pollStep (obs k) = none) →
        pollStep (obs i) = some r → pollLoop obs maxA = (r, i)) := by
  constructor
  · intro h
    have hz := pollLoopGo_none obs maxA 0 (fun i hi => by simpa using h i hi)
    simpa [pollLoop] using hz
  · intro i r hi hk hr
    have hz := pollLoopGo_hit obs maxA 0 i r hi
      (fun k hkk => by simpa using hk k hkk) (by simpa using hr)
    simpa [pollLoop] using hz

/-- Observation stream for the C6 witness: two reloads find the job still
running, the third finds it cancelled by an external actor. -/
def obsW : Nat → Job := fun n =>
  if n < 2 then { jobW with ocr_status := "running", whisper_status := "running" }
  else { jobW with final_status := "cancelled" }

/-- Witness for C6 at a concrete input: the loop aborts at attempt 2. -/
theorem poll_loop_first_decision_witness :
    pollLoop obsW 5 = (PollOutcome.cancelled, 2) :=
  (poll_loop_first_decision obsW 5).2 2 PollOutcome.cancelled (by decide)
    (by decide) (by decide)

/-- Claim C10: on success, each of the extraction and transcription runners
unconditionally sets the shared `status_message` column to None; consequently,
in the interleaving where the transcription runner commits its failure first
and the extraction runner then succeeds, the committed failure message is
erased (the concrete third and fourth conjuncts exhibit the loss). -/
theorem stage_success_clears_status_message :
    (∀ (env : Env) (s : OrchState) (jid : Nat) (b : String),
      (start_ocr_processing env s jid).2.1 = Except.ok b →
      ∃ j', ((start_ocr_processing env s jid).1).job = some j' ∧
        j'.status_message = none)
    ∧ (∀ (env : Env) (s : OrchState) (jid : Nat) (b : String),
      (start_whisper_processing env s jid).2.1 = Except.ok b →
      ∃ j', ((start_whisper_processing env s jid).1).job = some j' ∧
        j'.status_message = none)
    ∧ (((start_whisper_processing envWhisperTimeout stateW 1).1).job.map Job.status_message =
        some (some ("Whisper: " ++ serviceTimeoutMsg "http://whisper/transcribe")))
    ∧ (((start_ocr_processing envWhisperTimeout
          ((start_whisper_processing envWhisperTimeout stateW 1).1) 1).1).job.map
        Job.status_message = some none) := by
  refine ⟨?_, ?_, by decide, by decide⟩
  · intro env s jid b hok
    cases hg : getJob s jid with
    | none =>
      unfold start_ocr_processing at hok
      rw [hg] at hok
      cases hok
    | some j =>
      rcases start_ocr_cases env s jid j hg with ⟨e, heq⟩ | ⟨b', heq⟩
      · rw [heq] at hok
        cases hok
      · rw [heq]
        exact ⟨_, rfl, rfl⟩
  · intro env s jid b hok
    cases hg : getJob s jid with
    | none =>
      unfold start_whisper_processing at hok
      rw [hg] at hok
      cases hok
    | some j =>
      rcases start_whisper_cases env s jid j hg with ⟨e, heq⟩ | ⟨b', heq⟩
      · rw [heq] at hok
        cases hok
      · rw [heq]
        exact ⟨_, rfl, rfl⟩

/-- Witness for C10 at a concrete input: a successful OCR run on the fresh
job leaves the message column cleared. -/
theorem stage_success_clears_status_message_witness :
    ∃ j', ((start_ocr_processing envOk stateW 1).1).job = some j' ∧
      j'.status_message = none :=
  stage_success_clears_status_message.1 envOk stateW 1 "ocr-result" rfl

/-- Claim C2: for every invocation of `process_job` that begins processing
(the job exists and is not already cancelled), each attachment-bearing stage
endpoint (extraction and transcription) is posted to exactly once, with no
automatic retry, regardless of every dispatch outcome (`env` is universally
quantified, so this covers success, SSL, connection, timeout and HTTP
failures of either dispatch). -/
theorem attachment_stage_dispatched_exactly_once (env : Env) (s : OrchState)
    (jid : Nat) (j : Job) (h : getJob s jid = some j)
    (hnc : j.final_status ≠ "cancelled") :
    countCalls CallEvent.ocr ((process_job env s jid).2.2) = 1 ∧
    countCalls CallEvent.whisper ((process_job env s jid).2.2) = 1 := by
  have hid : j.id = jid := (getJob_some_elim h).2
  simp only [process_job, h, if_neg hnc]
  have hocr : ∃ j1 r1, j1.id = jid ∧
      start_ocr_processing env s jid = (putJob s j1, r1, [CallEvent.ocr]) := by
    rcases start_ocr_cases env s jid j h with ⟨e, heq⟩ | ⟨b, heq⟩
    · refine ⟨_, _, ?_, heq⟩
      exact hid
    · refine ⟨_, _, ?_, heq⟩
      exact hid
  obtain ⟨j1, r1, hid1, heq1⟩ := hocr
  rw [heq1]
  dsimp only
  have hg1 : getJob (putJob s j1) jid = some j1 := getJob_putJob_eq s j1 jid hid1
  have hwh : ∃ j2 r2,
      start_whisper_processing env (putJob s j1) jid =
        (putJob (putJob s j1) j2, r2, [CallEvent.whisper]) := by
    rcases start_whisper_cases env (putJob s j1) jid j1 hg1 with ⟨e, heq⟩ | ⟨b, heq⟩
    · exact ⟨_, _, heq⟩
    · exact ⟨_, _, heq⟩
  obtain ⟨j2, r2, heq2⟩ := hwh
  rw [heq2]
  dsimp only
  have htr := process_job_after_fanout_trace env (putJob (putJob s j1) j2) jid r1 r2
    ([CallEvent.ocr] ++ [CallEvent.whisper])
  constructor
  · rw [htr.1]
    decide
  · rw [htr.2]
    decide

/-- Witness for C2 at a concrete input: the fresh job with the all-success
oracle. -/
theorem attachment_stage_dispatched_exactly_once_witness :
    countCalls CallEvent.ocr ((process_job envOk stateW 1).2.2) = 1 ∧
    countCalls CallEvent.whisper ((process_job envOk stateW 1).2.2) = 1 :=
  attachment_stage_dispatched_exactly_once envOk stateW 1 jobW rfl (by decide)

/-- A job whose two attachment stages are done and whose overall status is
still pending, as checkpoint C would see it on the success path. -/
def jobBothDonePending : Job :=
  { jobW with ocr_status := "done", whisper_status := "done" }

/-- Store holding `jobBothDonePending` and no lectures. -/
def stateBothDonePending : OrchState :=
  { job := some jobBothDonePending, lectures := [], nextLectureId := 1 }

/-- Counterexample to claim C1 as stated: a job whose overall status is
already the terminal value cancelled (with both attachment stages done) is
overwritten to failed by the failure path of `start_llm_processing`
(orchestrator.py:219-224 has no guard on `final_status`). -/
theorem llm_failure_overwrites_cancelled :
    ((getJob stateCancelledBothDone 1).map Job.final_status = some "cancelled")
    ∧ ((getJob ((start_llm_processing envLlmReadFail stateCancelledBothDone 1).1) 1).map
        Job.final_status = some "failed") := by
  decide

/-- Claim C1 amended: `start_ocr_processing` and `start_whisper_processing`
never change any job's overall status; `process_job` invoked on an
already-cancelled job returns without writing; and the top-level error
aggregation of `process_job` leaves an already-cancelled job untouched.
(`start_llm_processing` is excluded: as the counterexample shows, once its
stage precondition holds it rewrites `final_status` unconditionally.) -/
theorem final_status_sink_outside_llm :
    (∀ (env : Env) (s : OrchState) (jid : Nat),
      ((start_ocr_processing env s jid).1).job.map Job.final_status =
        s.job.map Job.final_status)
    ∧ (∀ (env : Env) (s : OrchState) (jid : Nat),
      ((start_whisper_processing env s jid).1).job.map Job.final_status =
        s.job.map Job.final_status)
    ∧ (∀ (env : Env) (s : OrchState) (jid : Nat) (j : Job),
      getJob s jid = some j → j.final_status = "cancelled" →
      process_job env s jid = (s, Except.ok false, []))
    ∧ (∀ (e : String) (j : Job), j.final_status = "cancelled" →
      process_job_on_error e j = j) := by
  refine ⟨?_, ?_, ?_, ?_⟩
  · intro env s jid
    cases hg : getJob s jid with
    | none =>
      have hs : (start_ocr_processing env s jid).1 = s := by
        unfold start_ocr_processing
        rw [hg]
      rw [hs]
    | some j =>
      rcases start_ocr_cases env s jid j hg with ⟨e, heq⟩ | ⟨b, heq⟩ <;>
        rw [heq, (getJob_some_elim hg).1] <;> rfl
  · intro env s jid
    cases hg : getJob s jid with
    | none =>
      have hs : (start_whisper_processing env s jid).1 = s := by
        unfold start_whisper_processing
        rw [hg]
      rw [hs]
    | some j =>
      rcases start_whisper_cases env s jid j hg with ⟨e, heq⟩ | ⟨b, heq⟩ <;>
        rw [heq, (getJob_some_elim hg).1] <;> rfl
  · intro env s jid j h hc
    simp only [process_job, h, if_pos hc]
  · intro e j hc
    unfold process_job_on_error
    rw [if_pos hc]

/-- Witness for the amended C1 at a concrete input: the error aggregation
leaves the cancelled job untouched. -/
theorem final_status_sink_outside_llm_witness :
    process_job_on_error "boom" jobCancelledBothDone = jobCancelledBothDone :=
  final_status_sink_outside_llm.2.2.2 "boom" jobCancelledBothDone (by decide)

/-- Counterexample to claim C4 as stated: starting from the fresh job, the
operation sequence [successful `process_job`, re-run of
`start_ocr_processing` with a failing dispatch] reaches a store in which
`final_status` is done while `ocr_status` is failed. -/
theorem stage_rerun_breaks_done_invariant :
    ((getJob ((process_job envOk stateW 1).1) 1).map Job.final_status = some "done")
    ∧ ((getJob ((process_job envOk stateW 1).1) 1).map Job.ocr_status = some "done")
    ∧ ((getJob ((start_ocr_processing envOcrTimeout ((process_job envOk stateW 1).1) 1).1) 1).map
        Job.final_status = some "done")
    ∧ ((getJob ((start_ocr_processing envOcrTimeout ((process_job envOk stateW 1).1) 1).1) 1).map
        Job.ocr_status = some "failed") := by
  decide

/-- Claim C4 amended: whenever a pipeline operation (either stage runner, the
synthesis runner, or `process_job`) moves a job's overall status to done, the
resulting row has all three stage statuses done.  (The unrestricted claim
fails: a later stage-runner re-run can break the implication, as the
counterexample shows.) -/
theorem final_done_write_requires_all_stages_done :
    (∀ (env : Env) (s : OrchState) (jid : Nat) (j j' : Job),
      getJob s jid = some j → j.final_status ≠ "done" →
      getJob ((start_ocr_processing env s jid).1) jid = some j' →
      j'.final_status = "done" →
      j'.ocr_status = "done" ∧ j'.whisper_status = "done" ∧ j'.llm_status = "done")
    ∧ (∀ (env : Env) (s : OrchState) (jid : Nat) (j j' : Job),
      getJob s jid = some j → j.final_status ≠ "done" →
      getJob ((start_whisper_processing env s jid).1) jid = some j' →
      j'.final_status = "done" →
      j'.ocr_status = "done" ∧ j'.whisper_status = "done" ∧ j'.llm_status = "done")
    ∧ (∀ (env : Env) (s : OrchState) (jid : Nat) (j j' : Job),
      getJob s jid = some j → j.final_status ≠ "done" →
      getJob ((start_llm_processing env s jid).1) jid = some j' →
      j'.final_status = "done" →
      j'.ocr_status = "done" ∧ j'.whisper_status = "done" ∧ j'.llm_status = "done")
    ∧ (∀ (env : Env) (s : OrchState) (jid : Nat) (j j' : Job),
      getJob s jid = some j → j.final_status ≠ "done" →
      getJob ((process_job env s jid).1) jid = some j' →
      j'.final_status = "done" →
      j'.ocr_status = "done" ∧ j'.whisper_status = "done" ∧ j'.llm_status = "done") := by
  refine ⟨?_, ?_, ?_, ?_⟩
  · intro env s jid j j' h hnd hres hdone
    rcases start_ocr_cases env s jid j h with ⟨e, heq⟩ | ⟨b, heq⟩ <;>
      rw [heq] at hres <;> dsimp only at hres <;>
      have hj := getJob_putJob_some hres
    · subst hj
      exact absurd hdone hnd
    · subst hj
      exact absurd hdone hnd
  · intro env s jid j j' h hnd hres hdone
    rcases start_whisper_cases env s jid j h with ⟨e, heq⟩ | ⟨b, heq⟩ <;>
      rw [heq] at hres <;> dsimp only at hres <;>
      have hj := getJob_putJob_some hres
    · subst hj
      exact absurd hdone hnd
    · subst hj
      exact absurd hdone hnd
  · intro env s jid j j' h hnd hres hdone
    exact llm_final_done_aux env s jid j j' h hnd hres hdone
  · intro env s jid j j' h hnd hres hdone
    have hid : j.id = jid := (getJob_some_elim h).2
    simp only [process_job, h] at hres
    by_cases hcanc : j.final_status = "cancelled"
    · rw [if_pos hcanc] at hres
      dsimp only at hres
      rw [h] at hres
      cases hres
      exact absurd hdone hnd
    · rw [if_neg hcanc] at hres
      have hocr : ∃ j1 r1, j1.id = jid ∧ j1.final_status = j.final_status ∧
          start_ocr_processing env s jid = (putJob s j1, r1, [CallEvent.ocr]) := by
        rcases start_ocr_cases env s jid j h with ⟨e, heq⟩ | ⟨b, heq⟩
        · refine ⟨_, _, ?_, ?_, heq⟩
          · exact hid
          · rfl
        · refine ⟨_, _, ?_, ?_, heq⟩
          · exact hid
          · rfl
      obtain ⟨j1, r1, hid1, hfin1, heq1⟩ := hocr
      rw [heq1] at hres
      dsimp only at hres
      have hg1 : getJob (putJob s j1) jid = some j1 := getJob_putJob_eq s j1 jid hid1
      have hwh : ∃ j2 r2, j2.id = jid ∧ j2.final_status = j1.final_status ∧
          start_whisper_processing env (putJob s j1) jid =
            (putJob (putJob s j1) j2, r2, [CallEvent.whisper]) := by
        rcases start_whisper_cases env (putJob s j1) jid j1 hg1 with ⟨e, heq⟩ | ⟨b, heq⟩
        · refine ⟨_, _, ?_, ?_, heq⟩
          · exact hid1
          · rfl
        · refine ⟨_, _, ?_, ?_, heq⟩
          · exact hid1
          · rfl
      obtain ⟨j2, r2, hid2, hfin2, heq2⟩ := hwh
      rw [heq2] at hres
      dsimp only at hres
      have hg2 : getJob (putJob (putJob s j1) j2) jid = some j2 :=
        getJob_putJob_eq _ j2 jid hid2
      have hnd2 : j2.final_status ≠ "done" := by
        rw [hfin2, hfin1]
        exact hnd
      exact fanout_final_done_aux env (putJob (putJob s j1) j2) jid j2 j' r1 r2
        ([CallEvent.ocr] ++ [CallEvent.whisper]) hg2 hnd2 hres hdone

/-- Witness for the amended C4 at a concrete input: the successful synthesis
run on a job with both attachment stages done yields a row with all three
stage statuses done. -/
theorem final_done_write_requires_all_stages_done_witness :
    ({ jobW with ocr_status := "done", whisper_status := "done", llm_status := "done", final_status := "done" } : Job).ocr_status = "done" ∧
    ({ jobW with ocr_status := "done", whisper_status := "done", llm_status := "done", final_status := "done" } : Job).whisper_status = "done" ∧
    ({ jobW with ocr_status := "done", whisper_status := "done", llm_status := "done", final_status := "done" } : Job).llm_status = "done" :=
  final_done_write_requires_all_stages_done.2.2.1 envOk stateBothDonePending 1
    jobBothDonePending _ rfl (by decide) rfl rfl

/-- Claim C9: for every job at most one Lecture ever exists.  Conjuncts:
(1) `start_llm_processing` preserves the at-most-one-Lecture-per-job bound,
(2) `process_job` preserves it, (3) a successful synthesis run on a job with
no Lecture creates exactly the job's Lecture (appended with the next id), and
(4) a successful synthesis run on a job that already has a Lecture updates
that row in place: the first row with the job's id gets the new summary and
artifact paths, the set of row ids is unchanged, and the number of the job's
Lecture rows is unchanged. -/
theorem lecture_create_or_update_unique :
    (∀ (env : Env) (s : OrchState) (jid k : Nat), countLectures s k ≤ 1 →
      countLectures ((start_llm_processing env s jid).1) k ≤ 1)
    ∧ (∀ (env : Env) (s : OrchState) (jid k : Nat), countLectures s k ≤ 1 →
      countLectures ((process_job env s jid).1) k ≤ 1)
    ∧ (∀ (env : Env) (s : OrchState) (jid : Nat) (b : String),
      (start_llm_processing env s jid).2.1 = Except.ok b →
      s.lectures.find? (fun l => l.job_id == jid) = none →
      ((start_llm_processing env s jid).1).lectures =
        s.lectures ++
          [⟨s.nextLectureId, jid, env.llmSummary, finalNotesPath env jid,
            transcriptPath env jid⟩])
    ∧ (∀ (env : Env) (s : OrchState) (jid : Nat) (b : String) (l0 : Lecture),
      (start_llm_processing env s jid).2.1 = Except.ok b →
      s.lectures.find? (fun l => l.job_id == jid) = some l0 →
      ((start_llm_processing env s jid).1).lectures.find? (fun l => l.job_id == jid) =
          some (updateLecture env.llmSummary (finalNotesPath env jid)
            (transcriptPath env jid) l0)
        ∧ ((start_llm_processing env s jid).1).lectures.map Lecture.id =
            s.lectures.map Lecture.id
        ∧ countLectures ((start_llm_processing env s jid).1) jid = countLectures s jid) := by
  refine ⟨?_, ?_, ?_, ?_⟩
  · intro env s jid k h
    exact start_llm_countLectures_le env s jid k h
  · intro env s jid k h
    cases hg : getJob s jid with
    | none =>
      have hs : (process_job env s jid).1 = s := by
        unfold process_job
        rw [hg]
      rw [hs]
      exact h
    | some j =>
      have hid : j.id = jid := (getJob_some_elim hg).2
      simp only [process_job, hg]
      by_cases hc : j.final_status = "cancelled"
      · rw [if_pos hc]
        exact h
      · rw [if_neg hc]
        have hocr : ∃ j1 r1, j1.id = jid ∧
            start_ocr_processing env s jid = (putJob s j1, r1, [CallEvent.ocr]) := by
          rcases start_ocr_cases env s jid j hg with ⟨e, heq⟩ | ⟨b, heq⟩
          · refine ⟨_, _, ?_, heq⟩
            exact hid
          · refine ⟨_, _, ?_, heq⟩
            exact hid
        obtain ⟨j1, r1, hid1, heq1⟩ := hocr
        rw [heq1]
        dsimp only
        have hg1 : getJob (putJob s j1) jid = some j1 := getJob_putJob_eq s j1 jid hid1
        have hwh : ∃ j2 r2,
            start_whisper_processing env (putJob s j1) jid =
              (putJob (putJob s j1) j2, r2, [CallEvent.whisper]) := by
          rcases start_whisper_cases env (putJob s j1) jid j1 hg1 with ⟨e, heq⟩ | ⟨b, heq⟩
          · exact ⟨_, _, heq⟩
          · exact ⟨_, _, heq⟩
        obtain ⟨j2, r2, heq2⟩ := hwh
        rw [heq2]
        dsimp only
        exact fanout_countLectures_le env (putJob (putJob s j1) j2) jid k r1 r2
          ([CallEvent.ocr] ++ [CallEvent.whisper]) h
  · intro env s jid b hok hnone
    cases hg : getJob s jid with
    | none =>
      unfold start_llm_processing at hok
      rw [hg] at hok
      cases hok
    | some j =>
      rcases start_llm_cases env s jid j hg with ⟨_, heq⟩ | ⟨_, _, e, evs, heq, _⟩ |
        ⟨_, _, b', heq⟩
      · rw [heq] at hok
        cases hok
      · rw [heq] at hok
        cases hok
      · rw [heq]
        dsimp only
        rw [putJob_lectures]
        exact upsertLecture_lectures_none (putJob s { j with llm_status := "running" })
          jid env.llmSummary (finalNotesPath env jid) (transcriptPath env jid) hnone
  · intro env s jid b l0 hok hsome
    cases hg : getJob s jid with
    | none =>
      unfold start_llm_processing at hok
      rw [hg] at hok
      cases hok
    | some j =>
      rcases start_llm_cases env s jid j hg with ⟨_, heq⟩ | ⟨_, _, e, evs, heq, _⟩ |
        ⟨_, _, b', heq⟩
      · rw [heq] at hok
        cases hok
      · rw [heq] at hok
        cases hok
      · have hupd := upsertLecture_lectures_some
          (putJob s { j with llm_status := "running" }) jid env.llmSummary
          (finalNotesPath env jid) (transcriptPath env jid) l0 hsome
        refine ⟨?_, ?_, ?_⟩
        · rw [heq]
          dsimp only
          rw [putJob_lectures, hupd, putJob_lectures]
          exact updateFirstLecture_find? (fun l => l.job_id == jid)
            (updateLecture env.llmSummary (finalNotesPath env jid) (transcriptPath env jid))
            (fun l => rfl) s.lectures l0 hsome
        · rw [heq]
          dsimp only
          rw [putJob_lectures, hupd, putJob_lectures]
          exact updateFirstLecture_map_id (fun l => l.job_id == jid)
            (updateLecture env.llmSummary (finalNotesPath env jid) (transcriptPath env jid))
            (fun l => rfl) s.lectures
        · rw [heq]
          unfold countLectures
          dsimp only
          rw [putJob_lectures, hupd, putJob_lectures]
          exact updateFirstLecture_filter_length (fun l => l.job_id == jid)
            (fun l => l.job_id == jid)
            (updateLecture env.llmSummary (finalNotesPath env jid) (transcriptPath env jid))
            (fun l => rfl) s.lectures

/-- Witness for C9 at a concrete input: the first successful synthesis run on
a job with no Lecture creates exactly one Lecture row for it. -/
theorem lecture_create_or_update_unique_witness :
    ((start_llm_processing envOk stateBothDonePending 1).1).lectures =
      stateBothDonePending.lectures ++
        [⟨stateBothDonePending.nextLectureId, 1, envOk.llmSummary, finalNotesPath envOk 1,
          transcriptPath envOk 1⟩] :=
  lecture_create_or_update_unique.2.2.1 envOk stateBothDonePending 1 "llm-result" rfl rfl
